import Mathlib

/-!
Verification development for the image-editing backend
(`src/backend/ipc_server.py`, `src/backend/tools/Picture.py`).

The Python code manipulates PIL images whose samples are 8-bit unsigned
integers; NumPy float arithmetic is modelled by exact rationals (`ℚ`), with
`np.clip(-, 0, 255).astype(np.uint8)` modelled by clamping followed by
truncation (`toU8`).  Pixel buffers are modelled functionally: an `Img`
carries width, height, colour mode and a sample function; PIL operations
that allocate a new image become pure functions `Img → Img` (or
`Except PicErr Img` when the Python raises).
-/

/-- PIL colour modes used by the backend (`img.mode`). -/
inductive Mode
  | L | LA | RGB | RGBA | P
deriving DecidableEq

/-- Number of 8-bit bands of a mode (PIL band count). -/
def Mode.channels : Mode → Nat
  | .L => 1
  | .LA => 2
  | .RGB => 3
  | .RGBA => 4
  | .P => 1

/-- In-memory raster image: dimensions, mode, palette (used by `P` mode:
index ↦ RGBA entry) and the sample function.  `pix x y` lists the channel
samples of the pixel at column `x`, row `y`; only `x < width`, `y < height`
is meaningful. -/
structure Img where
  width : Nat
  height : Nat
  mode : Mode
  palette : Nat → List Nat := fun _ => [0, 0, 0, 255]
  pix : Nat → Nat → List Nat

/-- Pixel-identity of two images: same dimensions, same mode, and every
in-bounds sample equal. -/
def Img.PixEq (a b : Img) : Prop :=
  a.width = b.width ∧ a.height = b.height ∧ a.mode = b.mode ∧
    ∀ x, x < a.width → ∀ y, y < a.height → a.pix x y = b.pix x y

instance (a b : Img) : Decidable (a.PixEq b) := by
  unfold Img.PixEq; infer_instance

/-- Well-formedness: every in-bounds pixel has exactly the mode's channel
count, all samples are 8-bit; a palette image has a well-formed 256-entry
RGBA palette. -/
def Img.Wf (img : Img) : Prop :=
  (∀ x, x < img.width → ∀ y, y < img.height →
    (img.pix x y).length = img.mode.channels ∧
      ∀ c, c < img.mode.channels → (img.pix x y).getD c 0 ≤ 255) ∧
  (img.mode = .P → ∀ i, i < 256 →
    (img.palette i).length = 4 ∧ ∀ c, c < 4 → (img.palette i).getD c 0 ≤ 255)

instance (img : Img) : Decidable img.Wf := by
  unfold Img.Wf; infer_instance

/-- Replace every pixel of an image by `f` applied to it (dimensions, mode
and palette unchanged). -/
def Img.mapPix (img : Img) (f : List Nat → List Nat) : Img :=
  { img with pix := fun x y => f (img.pix x y) }

/-- Image whose pixels all equal `p`. -/
def uniformImg (w h : Nat) (m : Mode) (p : List Nat) : Img :=
  { width := w, height := h, mode := m, pix := fun _ _ => p }

/-- `np.clip(q, 0, 255)`. -/
def clip255 (q : ℚ) : ℚ := max 0 (min 255 q)

/-- `np.clip(q, 0, 255).astype(np.uint8)`: clamp to the 8-bit range, then
truncate the (now nonnegative) value. -/
def toU8 (q : ℚ) : Nat := (⌊clip255 q⌋).toNat

/-- Python `int(q)`: truncation toward zero. -/
def pyInt (q : ℚ) : Int := if 0 ≤ q then ⌊q⌋ else -⌊-q⌋

/-- First three channel samples of a pixel (missing entries read as 0). -/
def px3 (p : List Nat) : ℚ × ℚ × ℚ :=
  ((p.getD 0 0 : ℚ), (p.getD 1 0 : ℚ), (p.getD 2 0 : ℚ))

/-- PIL luminance conversion `L = (R*19595 + G*38470 + B*7471 + 0x8000) >> 16`
(ITU-R 601-2 luma transform, fixed point, as in Pillow's `convert("L")`). -/
def lumaOf (r g b : Nat) : Nat := (r * 19595 + g * 38470 + b * 7471 + 32768) / 65536

/-- `img.convert("RGB")` (PIL): RGBA/LA drop the alpha band without
compositing, L replicates luminance, P looks colours up in the palette. -/
def Img.convertRGB (img : Img) : Img :=
  { width := img.width, height := img.height, mode := .RGB, palette := img.palette,
    pix := fun x y =>
      let p := img.pix x y
      match img.mode with
      | .RGB => p
      | .RGBA => [p.getD 0 0, p.getD 1 0, p.getD 2 0]
      | .L => [p.getD 0 0, p.getD 0 0, p.getD 0 0]
      | .LA => [p.getD 0 0, p.getD 0 0, p.getD 0 0]
      | .P =>
        let q := img.palette (p.getD 0 0)
        [q.getD 0 0, q.getD 1 0, q.getD 2 0] }

/-- `img.convert("L")` (PIL): colour goes through the fixed luma weighting;
alpha is ignored; P is resolved through the palette first. -/
def Img.convertL (img : Img) : Img :=
  { width := img.width, height := img.height, mode := .L, palette := img.palette,
    pix := fun x y =>
      let p := img.pix x y
      match img.mode with
      | .L => p
      | .LA => [p.getD 0 0]
      | .RGB => [lumaOf (p.getD 0 0) (p.getD 1 0) (p.getD 2 0)]
      | .RGBA => [lumaOf (p.getD 0 0) (p.getD 1 0) (p.getD 2 0)]
      | .P =>
        let q := img.palette (p.getD 0 0)
        [lumaOf (q.getD 0 0) (q.getD 1 0) (q.getD 2 0)] }

/-- `img.convert("RGBA")` (PIL): P uses the palette's RGBA entries, RGB/L/LA
gain an opaque (or copied) alpha band. -/
def Img.convertRGBA (img : Img) : Img :=
  { width := img.width, height := img.height, mode := .RGBA, palette := img.palette,
    pix := fun x y =>
      let p := img.pix x y
      match img.mode with
      | .RGBA => p
      | .RGB => [p.getD 0 0, p.getD 1 0, p.getD 2 0, 255]
      | .L => [p.getD 0 0, p.getD 0 0, p.getD 0 0, 255]
      | .LA => [p.getD 0 0, p.getD 0 0, p.getD 0 0, p.getD 1 0]
      | .P =>
        let q := img.palette (p.getD 0 0)
        [q.getD 0 0, q.getD 1 0, q.getD 2 0, q.getD 3 0] }

/-- Errors raised inside `Picture` methods or by PIL and caught by the
router's `except` clause (`ipc_server.py` line 745). -/
inductive PicErr
  | unknownEnum (what value : String)
  | cropCoord (msg : String)
  | badKernel
  | zeroDiv
deriving DecidableEq

namespace Picture

/-- `Picture.sepia` (`Picture.py` lines 387-416): convert to RGB, apply the
fixed sepia matrix, blend source and projection by `intensity`, clip and
cast to uint8.  The float decimals 0.393 … are modelled exactly in `ℚ`. -/
def sepiaPix (intensity : ℚ) (p : List Nat) : List Nat :=
  let (r, g, b) := px3 p
  let sr := 0.393 * r + 0.769 * g + 0.189 * b
  let sg := 0.349 * r + 0.686 * g + 0.168 * b
  let sb := 0.272 * r + 0.534 * g + 0.131 * b
  [toU8 (r * (1 - intensity) + sr * intensity),
   toU8 (g * (1 - intensity) + sg * intensity),
   toU8 (b * (1 - intensity) + sb * intensity)]

/-- `Picture.sepia`. -/
def sepia (intensity : ℚ) (img : Img) : Img :=
  (img.convertRGB).mapPix (sepiaPix intensity)

/-- Sum of channel `c` over all pixels (as `np` would over a float array). -/
def sumPix (img : Img) (c : Nat) : ℚ :=
  ((List.range img.width).map fun x =>
    ((List.range img.height).map fun y => ((img.pix x y).getD c 0 : ℚ)).sum).sum

/-- `np.mean(img_array[:, :, c])`. -/
def meanCh (img : Img) (c : Nat) : ℚ :=
  sumPix img c / ((img.width : ℚ) * (img.height : ℚ))

/-- `Picture.white_balance` (`Picture.py` lines 207-239): convert to RGB;
for `auto`/`gray_world` scale each channel by `avg_gray / (avg + 1e-6)`;
any other method leaves the array untouched; clip and cast to uint8 in
every case.  float32 arithmetic is modelled by exact rationals
(ε = 1e-6 ↦ 1/1000000). -/
def whiteBalance (method : String) (img : Img) : Img :=
  let base := img.convertRGB
  let gains : ℚ × ℚ × ℚ :=
    if method = "auto" ∨ method = "gray_world" then
      let ar := meanCh base 0
      let ag := meanCh base 1
      let ab := meanCh base 2
      let gray := (ar + ag + ab) / 3
      (gray / (ar + 1 / 1000000), gray / (ag + 1 / 1000000), gray / (ab + 1 / 1000000))
    else (1, 1, 1)
  base.mapPix fun p =>
    let (r, g, b) := px3 p
    [toU8 (r * gains.1), toU8 (g * gains.2.1), toU8 (b * gains.2.2)]

/-- `Picture.color_temperature` (`Picture.py` lines 657-686): convert to RGB;
below 6500 scale red by `1 + factor*0.2` and blue by `1 - factor*0.2` with
`factor = (6500-T)/4500`; at or above 6500 invert with
`factor = (T-6500)/3500`; clip and cast to uint8. -/
def colorTemperature (t : Int) (img : Img) : Img :=
  let base := img.convertRGB
  let mults : ℚ × ℚ :=
    if t < 6500 then
      let f : ℚ := ((6500 - t : Int) : ℚ) / 4500
      (1 + f * (1 / 5), 1 - f * (1 / 5))
    else
      let f : ℚ := ((t - 6500 : Int) : ℚ) / 3500
      (1 - f * (1 / 5), 1 + f * (1 / 5))
  base.mapPix fun p =>
    let (r, g, b) := px3 p
    [toU8 (r * mults.1), toU8 g, toU8 (b * mults.2)]

end Picture

/-- Pillow `clip8` used by convolution filters: values at or below 0 become
0, at or above 255 become 255, otherwise the float is truncated. -/
def clip8 (q : ℚ) : Nat := toU8 q

/-- Pillow 3×3 convolution (`ImagingFilter`): the one-pixel border is copied
from the source; interior pixels get, per band,
`clip8(Σ kernel·sample / scale + offset)`. -/
def filter3x3 (k : List Int) (scale offset : Int) (img : Img) : Img :=
  { img with pix := fun x y =>
      if x = 0 ∨ y = 0 ∨ img.width ≤ x + 1 ∨ img.height ≤ y + 1 then img.pix x y
      else
        (List.range img.mode.channels).map fun c =>
          let s : Int :=
            ((List.range 3).map fun dy =>
              ((List.range 3).map fun dx =>
                k.getD (dy * 3 + dx) 0 *
                  ((img.pix (x - 1 + dx) (y - 1 + dy)).getD c 0 : Int)).sum).sum
          clip8 ((s : ℚ) / (scale : ℚ) + (offset : ℚ)) }

/-- Pillow 5×5 convolution: two-pixel border copied, interior convolved. -/
def filter5x5 (k : List Int) (scale offset : Int) (img : Img) : Img :=
  { img with pix := fun x y =>
      if x < 2 ∨ y < 2 ∨ img.width ≤ x + 2 ∨ img.height ≤ y + 2 then img.pix x y
      else
        (List.range img.mode.channels).map fun c =>
          let s : Int :=
            ((List.range 5).map fun dy =>
              ((List.range 5).map fun dx =>
                k.getD (dy * 5 + dx) 0 *
                  ((img.pix (x - 2 + dx) (y - 2 + dy)).getD c 0 : Int)).sum).sum
          clip8 ((s : ℚ) / (scale : ℚ) + (offset : ℚ)) }

/-- `ImageFilter.FIND_EDGES` kernel (scale 1, offset 0). -/
def kFindEdges : List Int := [-1, -1, -1, -1, 8, -1, -1, -1, -1]

/-- `ImageFilter.EDGE_ENHANCE_MORE` kernel (scale 1, offset 0). -/
def kEdgeEnhanceMore : List Int := [-1, -1, -1, -1, 10, -1, -1, -1, -1]

/-- `ImageFilter.CONTOUR` kernel (scale 1, offset 255). -/
def kContour : List Int := [-1, -1, -1, -1, 8, -1, -1, -1, -1]

/-- `ImageFilter.EMBOSS` kernel (scale 1, offset 128). -/
def kEmboss : List Int := [-1, 0, 0, 0, 1, 0, 0, 0, 0]

/-- `ImageFilter.SMOOTH` kernel (scale 13, offset 0). -/
def kSmooth : List Int := [1, 1, 1, 1, 5, 1, 1, 1, 1]

/-- `ImageFilter.BLUR` kernel (5×5, scale 16, offset 0). -/
def kBlur : List Int :=
  [1, 1, 1, 1, 1,
   1, 0, 0, 0, 1,
   1, 0, 0, 0, 1,
   1, 0, 0, 0, 1,
   1, 1, 1, 1, 1]

/-- Content stand-in for Pillow's incremental Gaussian/box blur (a chain of
box blurs in C).  Modelled as a single 3×3 smoothing pass; no claim in this
development constrains blur output samples — only that blurring succeeds and
preserves size and mode, which this does. -/
def blurContent (img : Img) : Img :=
  filter3x3 [1, 1, 1, 1, 1, 1, 1, 1, 1] 9 0 img

/-- Content stand-in for `Image.resize(..., LANCZOS)` sample values (nearest
sampling).  Only output dimensions and mode are constrained by any claim;
those are exact here. -/
def resampleTo (nw nh : Nat) (img : Img) : Img :=
  { width := nw, height := nh, mode := img.mode, palette := img.palette,
    pix := fun x y => img.pix (x * img.width / nw) (y * img.height / nh) }

/-- `Image.blend(a, b, alpha)` (Pillow `ImagingBlend`):
per channel `clip8(a + alpha*(b-a))`; `alpha` may lie outside `[0,1]`. -/
def blendPix (alpha : ℚ) (a b : List Nat) : List Nat :=
  (List.range a.length).map fun c =>
    toU8 ((a.getD c 0 : ℚ) + alpha * ((b.getD c 0 : ℚ) - (a.getD c 0 : ℚ)))

/-- `Image.blend` on whole images (dimensions/mode of the first argument). -/
def blendImg (a b : Img) (alpha : ℚ) : Img :=
  { a with pix := fun x y => blendPix alpha (a.pix x y) (b.pix x y) }

/-- Pillow fixed-point `MULDIV255` (divide by 255 with rounding):
`t = a*b + 128; ((t >> 8) + t) >> 8`. -/
def muldiv255 (a b : Nat) : Nat :=
  let t := a * b + 128
  (t / 256 + t) / 256

/-- Pillow mask blend used by `paste(img, mask)` / `Image.composite`:
`MULDIV255(bg, 255-m) + MULDIV255(src, m)`. -/
def blendMask (m bg src : Nat) : Nat := muldiv255 bg (255 - m) + muldiv255 src m

/-- `Image.composite(imgA, imgB, mask)` = paste of `imgA` over `imgB`
through the 8-bit `mask` (L mode), per channel. -/
def compositeImg (a b mask : Img) : Img :=
  { width := b.width, height := b.height, mode := b.mode, palette := b.palette,
    pix := fun x y =>
      let m := (mask.pix x y).getD 0 0
      (List.range b.mode.channels).map fun c =>
        blendMask m ((b.pix x y).getD c 0) ((a.pix x y).getD c 0) }

namespace Picture

/-- `Picture.thumbnail` (`Picture.py` lines 35-48): `img.thumbnail` never
enlarges; when it shrinks it preserves aspect (PIL's rounded-aspect fit,
modelled with round-half-up and a floor of 1).  No claim constrains the
thumbnail result. -/
def thumbnail (mw mh : Nat) (img : Img) : Img :=
  if img.width ≤ mw ∧ img.height ≤ mh then img
  else
    let sc : ℚ := min ((mw : ℚ) / (img.width : ℚ)) ((mh : ℚ) / (img.height : ℚ))
    let nw := max 1 (⌊(img.width : ℚ) * sc + 1 / 2⌋.toNat)
    let nh := max 1 (⌊(img.height : ℚ) * sc + 1 / 2⌋.toNat)
    resampleTo nw nh img

/-- Dimension computation of `Picture.resize` (`Picture.py` lines 51-87).
With `keep_aspect` the scale is `min(targetW/srcW, targetH/srcH)` and both
dimensions pass through Python's `int(...)` truncation; without it the
target is used as given. -/
def resizeDims (ow oh : Nat) (tw th : Int) (keep : Bool) : Int × Int :=
  if keep then
    let wr : ℚ := (tw : ℚ) / (ow : ℚ)
    let hr : ℚ := (th : ℚ) / (oh : ℚ)
    let sc := min wr hr
    (pyInt ((ow : ℚ) * sc), pyInt ((oh : ℚ) * sc))
  else (tw, th)

/-- `Picture.resize`. -/
def resize (tw th : Int) (keep : Bool) (img : Img) : Img :=
  let d := resizeDims img.width img.height tw th keep
  resampleTo d.1.toNat d.2.toNat img

/-- `Picture.rotate` (`Picture.py` lines 90-107) delegates to PIL's bicubic
rotation.  No claim constrains rotate output (pixels or expanded canvas), so
the trigonometric resampling is modelled as the identity on the buffer; the
session-level claims treat every transform only through the state fields it
writes. -/
def rotate (_angle : ℚ) (_expand : Bool) (_fill : List Nat) (img : Img) : Img :=
  img

/-- `Image.crop(box)` (PIL): raises `ValueError` when `right < left` or
`lower < upper`; otherwise the result has size `(right-left, bottom-top)`
and samples are read from the source where the box overlaps it, with
out-of-bounds positions filled with zeros (PIL pads, it does not clamp). -/
def pilCrop (img : Img) (l t r b : Int) : Except PicErr Img :=
  if r < l then .error (.cropCoord "right less than left")
  else if b < t then .error (.cropCoord "lower less than upper")
  else .ok
    { width := (r - l).toNat, height := (b - t).toNat, mode := img.mode,
      palette := img.palette,
      pix := fun x y =>
        let sx : Int := l + x
        let sy : Int := t + y
        if 0 ≤ sx ∧ sx < (img.width : Int) ∧ 0 ≤ sy ∧ sy < (img.height : Int) then
          img.pix sx.toNat sy.toNat
        else List.replicate img.mode.channels 0 }

/-- `Picture.crop` (`Picture.py` lines 110-123): direct delegation to
`Image.crop`. -/
def crop (img : Img) (l t r b : Int) : Except PicErr Img := pilCrop img l t r b

/-- `Picture.crop_center` (`Picture.py` lines 125-141):
`left = (W-w)//2`, `top = (H-h)//2` with Python floor division, then crop
the box `(left, top, left+w, top+h)`. -/
def cropCenter (img : Img) (w h : Int) : Except PicErr Img :=
  let l := ((img.width : Int) - w).fdiv 2
  let t := ((img.height : Int) - h).fdiv 2
  crop img l t (l + w) (t + h)

/-- `Picture.grayscale` (`Picture.py` lines 144-154): `img.convert("L")`. -/
def grayscale (img : Img) : Img := img.convertL

/-- `ImageOps.posterize(img, bits)` on RGB: keep the top `bits` bits of each
sample (`c & ~(2^(8-bits)-1)`). -/
def posterizePix (bits : Nat) (p : List Nat) : List Nat :=
  p.map fun c => c / 2 ^ (8 - bits) * 2 ^ (8 - bits)

/-- `ImageOps.invert` on an image without alpha: `255 - c` per sample. -/
def invertPix (p : List Nat) : List Nat := p.map fun c => 255 - c

/-- Content stand-in for `ImageFilter.ModeFilter(size=5)` (most frequent
sample in the 5×5 neighbourhood, values occurring at most twice ignored).
No claim constrains the oil-paint pipeline's samples; modelled as a
smoothing pass of the right type. -/
def modeFilterContent (img : Img) : Img := blurContent img

/-- A white RGB image of the given size (used by the cartoon composite). -/
def whiteRGB (w h : Nat) : Img := uniformImg w h .RGB [255, 255, 255]

/-- `Picture.art_effect` (`Picture.py` lines 157-204): four fixed pipelines;
any other `effect_type` raises `ValueError` naming the offending value. -/
def artEffect (t : String) (img : Img) : Except PicErr Img :=
  if t = "poster" then .ok ((img.convertRGB).mapPix (posterizePix 3))
  else if t = "sketch" then
    let gray := img.convertL
    let inverted := gray.mapPix invertPix
    let blurred := blurContent inverted
    .ok (blendImg gray (blurred.mapPix invertPix) (1 / 2))
  else if t = "oil_paint" then
    .ok (filter3x3 kEdgeEnhanceMore 1 0 (modeFilterContent img))
  else if t = "cartoon" then
    let edges := (filter3x3 kFindEdges 1 0 img.convertL).mapPix invertPix
    let color := (img.convertRGB).mapPix (posterizePix 4)
    .ok (compositeImg color (whiteRGB img.width img.height) edges)
  else .error (.unknownEnum "effect type" t)

/-- `ImageEnhance` degenerate-blend helper: result `= blend(degenerate, img,
factor)`, clipped per channel. -/
def enhance (degenerate img : Img) (factor : ℚ) : Img :=
  blendImg degenerate img factor

/-- `Picture.brightness` (`Picture.py` lines 242-256): blend from a black
image. -/
def brightness (factor : ℚ) (img : Img) : Img :=
  enhance (uniformImg img.width img.height img.mode
    (List.replicate img.mode.channels 0)) img factor

/-- `Picture.contrast` (`Picture.py` lines 259-273): blend from a uniform
image at the rounded mean luminance. -/
def contrast (factor : ℚ) (img : Img) : Img :=
  let m := ⌊meanCh img.convertL 0 + 1 / 2⌋.toNat
  enhance (uniformImg img.width img.height img.mode
    (List.replicate img.mode.channels m)) img factor

/-- `Picture.saturation` (`Picture.py` lines 276-290): blend from the
grayscale projection converted back to the source mode. -/
def saturation (factor : ℚ) (img : Img) : Img :=
  let degenerate :=
    match img.mode with
    | .RGB => img.convertL.convertRGB
    | .RGBA => img.convertL.convertRGBA
    | _ => img.convertL
  enhance degenerate img factor

/-- `Picture.sharpen` (`Picture.py` lines 293-307): blend from a smoothed
copy (`ImageFilter.SMOOTH`). -/
def sharpen (factor : ℚ) (img : Img) : Img :=
  enhance (filter3x3 kSmooth 13 0 img) img factor

/-- `Picture.blur` (`Picture.py` lines 310-339): `gaussian` and `box` blur
via PIL filters; `motion` builds an `ImageFilter.Kernel` of size
`(int(radius), 1)`, which PIL always rejects (`bad kernel size`: only 3×3
and 5×5 kernels exist); ANY OTHER string silently falls back to
`ImageFilter.BLUR`. -/
def blur (_radius : ℚ) (blurType : String) (img : Img) : Except PicErr Img :=
  if blurType = "gaussian" then .ok (blurContent img)
  else if blurType = "box" then .ok (blurContent img)
  else if blurType = "motion" then .error .badKernel
  else .ok (filter5x5 kBlur 16 0 img)

/-- `Picture.flip` (`Picture.py` lines 342-362): horizontal/vertical mirror;
any other direction raises `ValueError` naming the offending value. -/
def flip (d : String) (img : Img) : Except PicErr Img :=
  if d = "horizontal" then
    .ok { img with pix := fun x y => img.pix (img.width - 1 - x) y }
  else if d = "vertical" then
    .ok { img with pix := fun x y => img.pix x (img.height - 1 - y) }
  else .error (.unknownEnum "flip direction" d)

/-- `Picture.invert` (`Picture.py` lines 365-384): RGBA splits off alpha,
inverts the RGB bands and merges alpha back unchanged; every other mode is
converted to RGB (dropping any LA alpha) and inverted. -/
def invert (img : Img) : Img :=
  if img.mode = .RGBA then
    { img with pix := fun x y =>
        let p := img.pix x y
        [255 - p.getD 0 0, 255 - p.getD 1 0, 255 - p.getD 2 0, p.getD 3 0] }
  else (img.convertRGB).mapPix invertPix

/-- `Picture.edge_detect` (`Picture.py` lines 419-441): three named methods;
ANY OTHER string silently applies the default `FIND_EDGES` filter instead
of failing. -/
def edgeDetect (m : String) (img : Img) : Img :=
  if m = "default" then filter3x3 kFindEdges 1 0 img
  else if m = "enhance" then filter3x3 kEdgeEnhanceMore 1 0 img
  else if m = "contour" then filter3x3 kContour 1 255 img
  else filter3x3 kFindEdges 1 0 img

/-- `Picture.emboss` (`Picture.py` lines 444-454). -/
def emboss (img : Img) : Img := filter3x3 kEmboss 1 128 img

/-- `Picture.pixelate` (`Picture.py` lines 457-477): nearest-neighbour
downscale to `(W//size, H//size)` then nearest upscale back; `size = 0`
raises `ZeroDivisionError` in Python. -/
def pixelate (ps : Nat) (img : Img) : Except PicErr Img :=
  if ps = 0 then .error .zeroDiv
  else .ok (resampleTo img.width img.height
    (resampleTo (img.width / ps) (img.height / ps) img))

/-- Vignette mask level (`Picture.py` lines 494-500): the mask starts at 255
and each loop iteration `i` fills the ellipse inscribed in the box
`[i, i, w-i, h-i]` with `int(255*(1 - strength*(1 - i/(min(w,h)/2))))`; a
pixel ends at the value of the LAST ellipse containing it.  Ellipse
membership idealises PIL's rasteriser by the real inscribed ellipse through
pixel centres; no claim constrains vignette samples. -/
def vignetteLevel (w h x y : Nat) : Option Nat :=
  let cap := min w h / 2
  (List.range cap).foldl
    (fun (acc : Option Nat) (i : Nat) =>
      let a : Int := (w : Int) - 2 * i
      let b : Int := (h : Int) - 2 * i
      let dx : Int := 2 * x + 1 - w
      let dy : Int := 2 * y + 1 - h
      if dx * dx * b * b + dy * dy * a * a ≤ a * a * b * b then some i else acc)
    none

/-- `Picture.vignette` (`Picture.py` lines 480-507): convert to RGB, build
the radial mask, composite the image over black through it. -/
def vignette (strength : ℚ) (img : Img) : Img :=
  let base := img.convertRGB
  let m := min base.width base.height
  let mask : Img :=
    { width := base.width, height := base.height, mode := .L,
      pix := fun x y =>
        match vignetteLevel base.width base.height x y with
        | none => [255]
        | some i =>
          [toU8 (255 * (1 - strength * (1 - (i : ℚ) / ((m : ℚ) / 2))))] }
  let black := uniformImg base.width base.height .RGB [0, 0, 0]
  compositeImg base black mask

/-- `colorsys.rgb_to_hsv` over exact rationals. -/
def rgbToHsv (r g b : ℚ) : ℚ × ℚ × ℚ :=
  let maxc := max r (max g b)
  let minc := min r (min g b)
  let v := maxc
  if maxc = minc then (0, 0, v)
  else
    let s := (maxc - minc) / maxc
    let rc := (maxc - r) / (maxc - minc)
    let gc := (maxc - g) / (maxc - minc)
    let bc := (maxc - b) / (maxc - minc)
    let hh := if r = maxc then bc - gc else if g = maxc then 2 + rc - bc else 4 + gc - rc
    (Int.fract (hh / 6), s, v)

/-- `colorsys.hsv_to_rgb` over exact rationals. -/
def hsvToRgb (h s v : ℚ) : ℚ × ℚ × ℚ :=
  if s = 0 then (v, v, v)
  else
    let i : Int := ⌊h * 6⌋
    let f := h * 6 - (i : ℚ)
    let p := v * (1 - s)
    let q := v * (1 - s * f)
    let t := v * (1 - s * (1 - f))
    let j := i.emod 6
    if j = 0 then (v, t, p)
    else if j = 1 then (q, v, p)
    else if j = 2 then (p, v, t)
    else if j = 3 then (p, q, v)
    else if j = 4 then (t, p, v)
    else (v, p, q)

/-- `Picture.hue_shift` (`Picture.py` lines 510-538): convert to RGB,
normalise to `[0,1]`, rotate hue by `degrees/360` modulo 1 per pixel via
`colorsys`, denormalise with uint8 truncation.  Float arithmetic is
idealised as exact rationals. -/
def hueShift (degrees : ℚ) (img : Img) : Img :=
  (img.convertRGB).mapPix fun p =>
    let (r, g, b) := px3 p
    let (h, s, v) := rgbToHsv (r / 255) (g / 255) (b / 255)
    let h2 := Int.fract (h + degrees / 360)
    let (r2, g2, b2) := hsvToRgb h2 s v
    [(⌊r2 * 255⌋).toNat, (⌊g2 * 255⌋).toNat, (⌊b2 * 255⌋).toNat]

/-- `Picture.add_border` (`Picture.py` lines 541-556): `ImageOps.expand`
grows each side by `border_width` and fills with the colour (adapted to the
image's band count). -/
def addBorder (bw : Nat) (color : List Nat) (img : Img) : Img :=
  { width := img.width + 2 * bw, height := img.height + 2 * bw, mode := img.mode,
    palette := img.palette,
    pix := fun x y =>
      if bw ≤ x ∧ x < bw + img.width ∧ bw ≤ y ∧ y < bw + img.height then
        img.pix (x - bw) (y - bw)
      else (List.range img.mode.channels).map fun c => color.getD c 0 }

/-- Per-band `ImageOps.autocontrast` remap for one band image: with the
histogram trimmed by `cutoff` percent at each end, find `lo`/`hi`, then map
`c ↦ clamp(int(c*scale + offset))` with `scale = 255/(hi-lo)`,
`offset = -lo*scale`; identity when `hi ≤ lo`. -/
def histogram (img : Img) (c : Nat) : Nat → Nat := fun v =>
  ((List.range img.width).map fun x =>
    ((List.range img.height).map fun y =>
      if (img.pix x y).getD c 0 = v then 1 else 0).sum).sum

/-- Trim `cut` counts from the histogram starting at level `lo` going up
(the Pillow cutoff loop); returns the histogram with the low (or, mirrored,
high) tail removed. -/
def trimLow (h : Nat → Nat) (cut : Nat) : Nat → Nat := fun v =>
  let below := ((List.range v).map h).sum
  if below + h v ≤ cut then 0
  else if below ≤ cut then below + h v - cut
  else h v

/-- Autocontrast lookup for one band of an image. -/
def autocontrastBand (cutoff : ℚ) (img : Img) (c : Nat) : Nat → Nat :=
  let h0 := histogram img c
  let n := ((List.range 256).map h0).sum
  let cut := (pyInt ((n : ℚ) * cutoff / 100)).toNat
  let h1 := if cut = 0 then h0 else
    let low := trimLow h0 cut
    fun v => trimLow (fun w => low (255 - w)) cut (255 - v)
  let present := (List.range 256).filter fun v => h1 v ≠ 0
  match present.head?, present.getLast? with
  | some lo, some hi =>
    if hi ≤ lo then id
    else
      let scale : ℚ := 255 / ((hi : ℚ) - (lo : ℚ))
      fun v => min 255 ((pyInt ((v : ℚ) * scale + (-(lo : ℚ) * scale))).toNat)
  | _, _ => id

/-- `ImageOps.autocontrast` applied to every band of an image. -/
def autocontrastImg (cutoff : ℚ) (img : Img) : Img :=
  { img with pix := fun x y =>
      (List.range img.mode.channels).map fun c =>
        autocontrastBand cutoff img c ((img.pix x y).getD c 0) }

/-- `Picture.auto_contrast` (`Picture.py` lines 559-588): RGBA and LA split
off alpha, autocontrast the colour bands and merge alpha back unchanged;
other modes are autocontrasted directly. -/
def autoContrast (cutoff : ℚ) (img : Img) : Img :=
  match img.mode with
  | .RGBA =>
    let rgb := autocontrastImg cutoff img.convertRGB
    { img with pix := fun x y =>
        (rgb.pix x y).append [(img.pix x y).getD 3 0] }
  | .LA =>
    let l := autocontrastImg cutoff
      { img with mode := .L, pix := fun x y => [(img.pix x y).getD 0 0] }
    { img with pix := fun x y => [(l.pix x y).getD 0 0, (img.pix x y).getD 1 0] }
  | _ => autocontrastImg cutoff img

/-- `ImageOps.equalize` lut for one band: `step = (n - h[255]) // 255`;
identity when `step = 0`, else `lut[i] = (step//2 + Σ_{j<i} h[j]) // step`. -/
def equalizeBand (img : Img) (c : Nat) : Nat → Nat :=
  let h := histogram img c
  let n := ((List.range 256).map h).sum
  let step := (n - h 255) / 255
  if step = 0 then id
  else fun v => (step / 2 + ((List.range v).map h).sum) / step

/-- Pillow fixed-point RGB→YCbCr (JPEG coefficients, `ConvertYCbCr`). -/
def rgb2ycbcr (r g b : Nat) : Nat × Nat × Nat :=
  ((19595 * r + 38470 * g + 7471 * b + 32768) / 65536,
   ((-11056 * (r : Int) - 21712 * g + 32768 * b + 8421376) / 65536).toNat,
   ((32768 * (r : Int) - 27440 * g - 5328 * b + 8421376) / 65536).toNat)

/-- Pillow fixed-point YCbCr→RGB (clamped to the 8-bit range). -/
def ycbcr2rgb (y cb cr : Nat) : Nat × Nat × Nat :=
  let clamp : Int → Nat := fun v => (max 0 (min 255 v)).toNat
  (clamp (((y : Int) * 65536 + 91881 * ((cr : Int) - 128)) / 65536),
   clamp (((y : Int) * 65536 - 22553 * ((cb : Int) - 128) - 46802 * ((cr : Int) - 128)) / 65536),
   clamp (((y : Int) * 65536 + 116130 * ((cb : Int) - 128)) / 65536))

/-- Equalize the luma channel of an RGB image through YCbCr round-trip
(`Picture.equalize`, RGB branch). -/
def equalizeRGB (img : Img) : Img :=
  let ycc : Img :=
    { img with mode := .RGB, pix := fun x y =>
        let p := img.pix x y
        let t := rgb2ycbcr (p.getD 0 0) (p.getD 1 0) (p.getD 2 0)
        [t.1, t.2.1, t.2.2] }
  let lut := equalizeBand ycc 0
  { img with mode := .RGB, pix := fun x y =>
      let p := ycc.pix x y
      let t := ycbcr2rgb (lut (p.getD 0 0)) (p.getD 1 0) (p.getD 2 0)
      [t.1, t.2.1, t.2.2] }

/-- `Picture.equalize` (`Picture.py` lines 591-654): RGBA equalizes luma and
re-attaches alpha; RGB equalizes luma via YCbCr; L/P equalize directly; LA
equalizes L and keeps alpha; anything else goes through RGB. -/
def equalize (img : Img) : Img :=
  match img.mode with
  | .RGBA =>
    let rgb := equalizeRGB img.convertRGB
    { img with pix := fun x y => (rgb.pix x y).append [(img.pix x y).getD 3 0] }
  | .RGB => equalizeRGB img
  | .L =>
    let lut := equalizeBand img 0
    { img with pix := fun x y => [lut ((img.pix x y).getD 0 0)] }
  | .P =>
    let lut := equalizeBand img 0
    { img with pix := fun x y => [lut ((img.pix x y).getD 0 0)] }
  | .LA =>
    let l : Img := { img with mode := .L, pix := fun x y => [(img.pix x y).getD 0 0] }
    let lut := equalizeBand l 0
    { img with pix := fun x y => [lut ((img.pix x y).getD 0 0), (img.pix x y).getD 1 0] }

end Picture
/-- Error kinds of the spec's error-handling design (§7), as realised by the
router's distinct failure branches. -/
inductive ErrKind
  | MissingParameter | InvalidParameter | NoImageLoaded
deriving DecidableEq

/-- The `info` dictionary of a successful response
(`IPCServer._get_image_info`): width, height and mode of the image. -/
structure ImgInfo where
  width : Nat
  height : Nat
  mode : Mode
deriving DecidableEq

/-- `IPCServer._get_image_info`. -/
def infoOf (img : Img) : ImgInfo := ⟨img.width, img.height, img.mode⟩

/-- Router response, reduced to the parts the claims speak about: success
with the new image's info, or one of the failure branches of
`handle_request`.  The branch determines the spec's error kind; `errPic`
carries errors raised inside `Picture`/PIL and caught at line 745. -/
inductive Resp
  | ok (info : ImgInfo)
  | errNoImage
  | errMissing (param : String)
  | errPic (e : PicErr)
deriving DecidableEq

/-- Error kind of a response (`none` on success).  The no-image guards and
the reset guard surface as `NoImageLoaded`; absent required parameters as
`MissingParameter`; value errors raised by `Picture`/PIL (bad enum strings,
bad crop boxes, bad kernels) as `InvalidParameter`. -/
def Resp.kind : Resp → Option ErrKind
  | .ok _ => none
  | .errNoImage => some .NoImageLoaded
  | .errMissing _ => some .MissingParameter
  | .errPic _ => some .InvalidParameter

/-- Is the response a success (`"success": true`)? -/
def Resp.isOk : Resp → Bool
  | .ok _ => true
  | _ => false

/-- Session state of the server (`IPCServer.__init__`): the backup taken at
load time and the working image.  `self.picture` always mirrors
`current_image` via `set_image` and is not tracked separately. -/
structure Session where
  original : Option Img
  current : Option Img

/-- The state at process start: nothing loaded. -/
def emptySession : Session := ⟨none, none⟩

/-- The state right after a successful load of `img`. -/
def mkLoaded (img : Img) : Session := ⟨some img, some img⟩

/-- One inbound request, after JSON parsing and `request.get` defaulting.
Parameters that have defaults in `handle_request` appear as plain values;
required parameters (`width`/`height` of resize and crop_center,
`right`/`bottom` of crop) appear as `Option` so the missing-parameter
guards can be modelled.  `load` models a successful `load_file`/
`load_base64` delivering the decoded image. -/
inductive Request
  | load (img : Img)
  | reset
  | thumbnail (maxW maxH : Nat)
  | resize (width height : Option Int) (keepAspect : Bool)
  | rotate (angle : ℚ) (expand : Bool) (fill : List Nat)
  | crop (left top : Int) (right bottom : Option Int)
  | cropCenter (width height : Option Int)
  | flip (direction : String)
  | grayscale
  | brightness (factor : ℚ)
  | contrast (factor : ℚ)
  | saturation (factor : ℚ)
  | sharpen (factor : ℚ)
  | whiteBalance (method : String)
  | colorTemperature (temperature : Int)
  | hueShift (degrees : ℚ)
  | autoContrast (cutoff : ℚ)
  | equalize
  | invert
  | sepia (intensity : ℚ)
  | blur (radius : ℚ) (blurType : String)
  | edgeDetect (method : String)
  | emboss
  | pixelate (pixelSize : Nat)
  | vignette (strength : ℚ)
  | artEffect (effectType : String)
  | addBorder (borderWidth : Nat) (color : List Nat)

/-- Python falsiness of an optional int (`if not width`): absent or zero. -/
def falsyInt : Option Int → Bool
  | none => true
  | some v => v = 0

/-- Shared shape of every transform handler in `handle_request`: if no image
is loaded answer the no-image error, otherwise run the operation; an
exception leaves the state untouched (the `except` at line 745), a result
replaces `current_image` (and `picture`), never `original_image`. -/
def stepTransform (s : Session) (f : Img → Except PicErr Img) : Resp × Session :=
  match s.current with
  | none => (.errNoImage, s)
  | some img =>
    match f img with
    | .error e => (.errPic e, s)
    | .ok img2 => (.ok (infoOf img2), { s with current := some img2 })

/-- `IPCServer.handle_request` (`ipc_server.py` lines 118-749), restricted
to the image-session actions the claims are about.  Guard order follows the
source: resize/crop/crop_center test their required parameters BEFORE the
no-image check; every other transform checks `current_image is None` first;
`reset` checks `original_image is None`. -/
def handleRequest (s : Session) (r : Request) : Resp × Session :=
  match r with
  | .load img => (.ok (infoOf img), ⟨some img, some img⟩)
  | .reset =>
    match s.original with
    | none => (.errNoImage, s)
    | some orig => (.ok (infoOf orig), { s with current := some orig })
  | .thumbnail mw mh => stepTransform s fun img => .ok (Picture.thumbnail mw mh img)
  | .resize w? h? keep =>
    if falsyInt w? || falsyInt h? then (.errMissing "width or height", s)
    else stepTransform s fun img => .ok (Picture.resize (w?.getD 0) (h?.getD 0) keep img)
  | .rotate a e fl => stepTransform s fun img => .ok (Picture.rotate a e fl img)
  | .crop l t r? b? =>
    if r?.isNone || b?.isNone then (.errMissing "right or bottom", s)
    else stepTransform s fun img => Picture.crop img l t (r?.getD 0) (b?.getD 0)
  | .cropCenter w? h? =>
    if falsyInt w? || falsyInt h? then (.errMissing "width or height", s)
    else stepTransform s fun img => Picture.cropCenter img (w?.getD 0) (h?.getD 0)
  | .flip d => stepTransform s fun img => Picture.flip d img
  | .grayscale => stepTransform s fun img => .ok (Picture.grayscale img)
  | .brightness f => stepTransform s fun img => .ok (Picture.brightness f img)
  | .contrast f => stepTransform s fun img => .ok (Picture.contrast f img)
  | .saturation f => stepTransform s fun img => .ok (Picture.saturation f img)
  | .sharpen f => stepTransform s fun img => .ok (Picture.sharpen f img)
  | .whiteBalance m => stepTransform s fun img => .ok (Picture.whiteBalance m img)
  | .colorTemperature t => stepTransform s fun img => .ok (Picture.colorTemperature t img)
  | .hueShift d => stepTransform s fun img => .ok (Picture.hueShift d img)
  | .autoContrast c => stepTransform s fun img => .ok (Picture.autoContrast c img)
  | .equalize => stepTransform s fun img => .ok (Picture.equalize img)
  | .invert => stepTransform s fun img => .ok (Picture.invert img)
  | .sepia i => stepTransform s fun img => .ok (Picture.sepia i img)
  | .blur r bt => stepTransform s fun img => Picture.blur r bt img
  | .edgeDetect m => stepTransform s fun img => .ok (Picture.edgeDetect m img)
  | .emboss => stepTransform s fun img => .ok (Picture.emboss img)
  | .pixelate p => stepTransform s fun img => Picture.pixelate p img
  | .vignette st => stepTransform s fun img => .ok (Picture.vignette st img)
  | .artEffect t => stepTransform s fun img => Picture.artEffect t img
  | .addBorder bw c => stepTransform s fun img => .ok (Picture.addBorder bw c img)

/-- Run a list of requests through the router, keeping the final state. -/
def runReqs (s : Session) (rs : List Request) : Session :=
  rs.foldl (fun s r => (handleRequest s r).2) s

/-- Is the request one of the transform operations (not `load`, not
`reset`)? -/
def Request.isTransform : Request → Bool
  | .load _ => false
  | .reset => false
  | _ => true

/-- Did every request in the list succeed, run in sequence from `s`? -/
def allOk : Session → List Request → Bool
  | _, [] => true
  | s, r :: rs =>
    let p := handleRequest s r
    p.1.isOk && allOk p.2 rs

/-- Are the required parameters of the request present (and non-falsy where
the source uses a falsiness test)?  Only resize, crop and crop_center have
required parameters among the transforms. -/
def Request.paramsPresent : Request → Bool
  | .resize w? h? _ => !(falsyInt w? || falsyInt h?)
  | .crop _ _ r? b? => !(r?.isNone || b?.isNone)
  | .cropCenter w? h? => !(falsyInt w? || falsyInt h?)
  | _ => true

/-- Image preparation of `IPCServer._image_to_base64` (`ipc_server.py`
lines 37-65): RGBA/LA/P images are pasted onto an opaque white RGB
background using their last band as the blend mask (P is first converted to
RGBA); any other non-RGB mode is converted to RGB.  The pasted source is
converted to the background's RGB mode first, as PIL's `paste` does. -/
def pasteWhite (img : Img) : Img :=
  let rgbv := img.convertRGB
  { width := img.width, height := img.height, mode := .RGB, palette := img.palette,
    pix := fun x y =>
      let a := (img.pix x y).getD (img.mode.channels - 1) 0
      (List.range 3).map fun c => blendMask a 255 ((rgbv.pix x y).getD c 0) }

/-- The image actually handed to the JPEG encoder by `_image_to_base64`. -/
def imgToB64Prep (img : Img) : Img :=
  if img.mode = .RGBA ∨ img.mode = .LA ∨ img.mode = .P then
    pasteWhite (if img.mode = .P then img.convertRGBA else img)
  else if img.mode = .RGB then img
  else img.convertRGB

/-- The encoding chosen by `_image_to_base64` (`save_format = "JPEG"`,
line 42): the `format` parameter of the method, and hence of the
`get_base64` action, is never read. -/
def imgToB64Format (_format : String) : String := "JPEG"

/-- C1 witness: a concrete load, two concrete successful transforms, then
reset. -/
def c1img : Img := uniformImg 2 2 .RGB [10, 20, 30]

/-- C3 counterexample: `sepia` on an RGBA image returns a plain RGB image:
the alpha channel is not present in the output at all (dropped by the
initial `convert("RGB")`), contradicting alpha preservation. -/
def c3img : Img := uniformImg 1 1 .RGBA [10, 20, 30, 40]

/-- C3 witness image. -/
def c3wimg : Img := uniformImg 2 1 .RGBA [1, 2, 3, 200]

/-- C4 counterexample: a crop_center larger than the source does NOT fail
with `InvalidParameter`: PIL pads, so the request succeeds with the full
requested size and zero-filled out-of-bounds samples. -/
def c4img : Img := uniformImg 2 2 .RGB [7, 7, 7]

/-- C4 witness: 3×3 source, centred 2×2 crop. -/
def c4wimg : Img := uniformImg 3 3 .RGB [9, 9, 9]

/-- C5 counterexample: `edge_detect` with an unrecognised method does NOT
fail with `InvalidParameter`: it silently applies the default `FIND_EDGES`
filter and the request succeeds. -/
def c5img : Img := uniformImg 2 2 .L [50]

/-- C5 witness image and strings. -/
def c5wimg : Img := uniformImg 1 1 .L [5]

/-- Resize dimension rule as the SPEC words it, for comparison with the
code's `resizeDims`: scale by `min(targetW/srcW, targetH/srcH)`, round each
dimension to the NEAREST integer, and floor the result at 1. -/
def specResizeDims (ow oh : Nat) (tw th : Int) : Int × Int :=
  let sc : ℚ := min ((tw : ℚ) / (ow : ℚ)) ((th : ℚ) / (oh : ℚ))
  (max 1 ⌊(ow : ℚ) * sc + 1 / 2⌋, max 1 ⌊(oh : ℚ) * sc + 1 / 2⌋)

/-- The 2000×1000 scenario image. -/
def img2000 : Img := uniformImg 2000 1000 .RGB [128, 128, 128]

/-- The red sample a 20%-capped adjustment (as the spec words the 1000K
low end) would produce on gray level 100. -/
def specCapRed100 : Nat := toU8 (100 * (1 + 1 / 5))

/-- The concrete gray image for the C7 counterexample. -/
def c7gray : Img := uniformImg 2 2 .RGB [100, 100, 100]

/-- C8 witness image. -/
def c8img : Img := uniformImg 1 1 .RGB [10, 20, 30]

/-- The uniform gray level-1 and level-0 images of C9. -/
def c9gray1 : Img := uniformImg 2 2 .RGB [1, 1, 1]

def c9gray0 : Img := uniformImg 2 2 .RGB [0, 0, 0]

/-- C10 witness: a P-mode format string and an RGBA image. -/
def c10img : Img := uniformImg 1 1 .RGBA [40, 80, 120, 128]

/-- A transform handler never writes `original_image`. -/
theorem stepTransform_original (s : Session) (f : Img → Except PicErr Img) :
    ((stepTransform s f).2).original = s.original := by
  unfold stepTransform
  cases s.current with
  | none => rfl
  | some img =>
    dsimp only
    cases f img <;> rfl

/-- A transform handler that fails leaves the whole state unchanged. -/
theorem stepTransform_err (s : Session) (f : Img → Except PicErr Img) (img : Img)
    (hc : s.current = some img) (e : PicErr) (hf : f img = .error e) :
    stepTransform s f = (.errPic e, s) := by
  unfold stepTransform
  rw [hc]
  dsimp only
  rw [hf]

/-- No transform request ever changes `original_image`: every transform
branch of `handle_request` assigns only `current_image`. -/
theorem handleRequest_original (s : Session) (r : Request)
    (h : r.isTransform = true) :
    ((handleRequest s r).2).original = s.original := by
  cases r
  case load img => simp [Request.isTransform] at h
  case reset => simp [Request.isTransform] at h
  all_goals
    simp only [handleRequest]
    try split
    all_goals simp [stepTransform_original]

/-- Running any sequence of transform requests preserves `original_image`. -/
theorem runReqs_original (s : Session) (rs : List Request)
    (h : rs.all Request.isTransform = true) :
    (runReqs s rs).original = s.original := by
  induction rs generalizing s with
  | nil => rfl
  | cons r rs ih =>
    simp only [List.all_cons, Bool.and_eq_true] at h
    have : runReqs s (r :: rs) = runReqs ((handleRequest s r).2) rs := rfl
    rw [this, ih _ h.2, handleRequest_original s r h.1]

/-- C1: after a load of `img` followed by any sequence of (successful)
transform requests, `reset` succeeds and sets `current` back to exactly the
buffer captured at load time; throughout, `original` still holds that
buffer, so no transform applied to `current` is observable through it. -/
theorem c1_reset_restores_load (s0 : Session) (img : Img) (rs : List Request)
    (htr : rs.all Request.isTransform = true)
    (hok : allOk (handleRequest s0 (.load img)).2 rs = true) :
    (handleRequest (runReqs (handleRequest s0 (.load img)).2 rs) .reset).1 =
      .ok (infoOf img) ∧
    (handleRequest (runReqs (handleRequest s0 (.load img)).2 rs) .reset).2.current =
      some img ∧
    (runReqs (handleRequest s0 (.load img)).2 rs).original = some img := by
  have horig : (runReqs (handleRequest s0 (.load img)).2 rs).original = some img := by
    rw [runReqs_original _ rs htr]
    rfl
  refine ⟨?_, ?_, horig⟩ <;>
    · simp only [handleRequest] at horig ⊢
      rw [horig]

theorem c1_reset_restores_load_witness :
    (handleRequest (runReqs (handleRequest emptySession
        (.load c1img)).2 [.invert, .flip "horizontal"]) .reset).1 =
      .ok (infoOf c1img) ∧
    (handleRequest (runReqs (handleRequest emptySession
        (.load c1img)).2 [.invert, .flip "horizontal"]) .reset).2.current =
      some c1img ∧
    (runReqs (handleRequest emptySession
        (.load c1img)).2 [.invert, .flip "horizontal"]).original = some c1img :=
  c1_reset_restores_load emptySession c1img [.invert, .flip "horizontal"]
    (by decide) (by decide)

/-- C2 (amended): every transform request whose required parameters are
present, and `reset`, fail with the `NoImageLoaded` kind in the `Empty`
state and leave the state unchanged. -/
theorem c2_empty_noImageLoaded (r : Request)
    (htr : r.isTransform = true ∨ r = .reset)
    (hp : r.paramsPresent = true) :
    handleRequest emptySession r = (.errNoImage, emptySession) ∧
    (handleRequest emptySession r).1.kind = some .NoImageLoaded := by
  have h1 : handleRequest emptySession r = (.errNoImage, emptySession) := by
    cases r <;> try rfl
    case load img =>
      rcases htr with h | h
      · simp [Request.isTransform] at h
      · simp at h
    case resize w? h? k =>
      simp only [Request.paramsPresent, Bool.not_eq_true'] at hp
      simp [handleRequest, hp, stepTransform, emptySession]
    case crop l t r? b? =>
      simp only [Request.paramsPresent, Bool.not_eq_true'] at hp
      simp [handleRequest, hp, stepTransform, emptySession]
    case cropCenter w? h? =>
      simp only [Request.paramsPresent, Bool.not_eq_true'] at hp
      simp [handleRequest, hp, stepTransform, emptySession]
  refine ⟨h1, ?_⟩
  rw [h1]
  rfl

/-- C2 counterexample: a resize request with its required parameters absent,
sent in the `Empty` state, fails with the missing-parameter error (the
parameter guard runs BEFORE the no-image guard), not with `NoImageLoaded`. -/
theorem c2_cx_missing_param_first :
    handleRequest emptySession (.resize none none false) =
      (.errMissing "width or height", emptySession) ∧
    (handleRequest emptySession (.resize none none false)).1.kind ≠
      some .NoImageLoaded ∧
    (Request.resize none none false).isTransform = true :=
  ⟨rfl, by decide, rfl⟩

/-- C2 witness: a concrete transform with all parameters present fails with
`NoImageLoaded` in the `Empty` state. -/
theorem c2_empty_noImageLoaded_witness :
    handleRequest emptySession (.cropCenter (some 10) (some 10)) =
      (.errNoImage, emptySession) ∧
    (handleRequest emptySession (.cropCenter (some 10) (some 10))).1.kind =
      some .NoImageLoaded :=
  c2_empty_noImageLoaded (.cropCenter (some 10) (some 10)) (Or.inl rfl) rfl

/-- Casting an 8-bit sample through clip-and-truncate is the identity. -/
theorem toU8_coe (n : Nat) (h : n ≤ 255) : toU8 (n : ℚ) = n := by
  unfold toU8 clip255
  rw [min_eq_right (by exact_mod_cast h), max_eq_right (by positivity)]
  simp

/-- A three-element list is determined by its three `getD` reads. -/
theorem list3_ext : ∀ (p : List Nat), p.length = 3 →
    p = [p.getD 0 0, p.getD 1 0, p.getD 2 0]
  | [_, _, _], _ => rfl

/-- `convert("RGB")` of a well-formed image yields length-3 pixels of 8-bit
samples (in bounds). -/
theorem convertRGB_pix_wf (img : Img) (hwf : img.Wf) (x y : Nat)
    (hx : x < img.width) (hy : y < img.height) :
    ((img.convertRGB).pix x y).length = 3 ∧
      ∀ c, c < 3 → ((img.convertRGB).pix x y).getD c 0 ≤ 255 := by
  obtain ⟨hpix, hpal⟩ := hwf
  obtain ⟨hlen, hbnd⟩ := hpix x hx y hy
  unfold Img.convertRGB
  dsimp only
  cases hm : img.mode
  all_goals rw [hm] at hlen hbnd
  case RGB =>
    exact ⟨hlen, hbnd⟩
  case RGBA =>
    refine ⟨rfl, ?_⟩
    intro c hc
    interval_cases c <;> simp only [List.getD_cons_zero, List.getD_cons_succ] <;>
      [exact hbnd 0 (by simp [Mode.channels]); exact hbnd 1 (by simp [Mode.channels]);
        exact hbnd 2 (by simp [Mode.channels])]
  case L =>
    refine ⟨rfl, ?_⟩
    intro c hc
    interval_cases c <;>
      simpa only [List.getD_cons_zero, List.getD_cons_succ] using
        hbnd 0 (by simp [Mode.channels])
  case LA =>
    refine ⟨rfl, ?_⟩
    intro c hc
    interval_cases c <;>
      simpa only [List.getD_cons_zero, List.getD_cons_succ] using
        hbnd 0 (by simp [Mode.channels])
  case P =>
    refine ⟨rfl, ?_⟩
    have hidx : (img.pix x y).getD 0 0 < 256 :=
      Nat.lt_succ_of_le (hbnd 0 (by simp [Mode.channels]))
    obtain ⟨_, hq⟩ := hpal hm _ hidx
    intro c hc
    interval_cases c <;> simp only [List.getD_cons_zero, List.getD_cons_succ] <;>
      [exact hq 0 (by omega); exact hq 1 (by omega); exact hq 2 (by omega)]

theorem c3_cx_sepia_drops_alpha :
    (Picture.sepia 1 c3img).mode = .RGB ∧
    Mode.RGB ≠ Mode.RGBA ∧
    ((Picture.sepia 1 c3img).pix 0 0).length = 3 := by
  refine ⟨rfl, by decide, rfl⟩

/-- C3 (amended): among the cited colour operations, `sepia`,
`white_balance` and `color_temperature` first convert the image to RGB and
return an image with NO alpha channel; `invert` on a colour+alpha image
does preserve the alpha band sample-for-sample (as do the split/merge
branches of `auto_contrast` and `equalize`). -/
theorem c3_alpha_dropped_or_kept (img : Img) (i : ℚ) (m : String) (t : Int)
    (hmode : img.mode = .RGBA) :
    (Picture.sepia i img).mode = .RGB ∧
    (Picture.whiteBalance m img).mode = .RGB ∧
    (Picture.colorTemperature t img).mode = .RGB ∧
    (Picture.invert img).mode = .RGBA ∧
    (∀ x y, ((Picture.invert img).pix x y).getD 3 0 = (img.pix x y).getD 3 0) ∧
    (∀ x y, ((Picture.autoContrast 0 img).pix x y).getD 3 0 = (img.pix x y).getD 3 0) ∧
    (∀ x y, ((Picture.equalize img).pix x y).getD 3 0 = (img.pix x y).getD 3 0) := by
  refine ⟨rfl, rfl, rfl, ?_, ?_, ?_, ?_⟩
  · simp [Picture.invert, hmode]
  · intro x y
    simp [Picture.invert, hmode, List.getD]
  · intro x y
    unfold Picture.autoContrast
    rw [hmode]
    dsimp only
    have h3 : ((Picture.autocontrastImg 0 img.convertRGB).pix x y).length = 3 := by
      simp [Picture.autocontrastImg, Img.convertRGB, Mode.channels]
    rw [List.append_eq, List.getD_append_right _ _ _ _ h3.le, h3]
    simp
  · intro x y
    unfold Picture.equalize
    rw [hmode]
    dsimp only
    have h3 : ((Picture.equalizeRGB img.convertRGB).pix x y).length = 3 := by
      simp [Picture.equalizeRGB, Img.convertRGB, Mode.channels]
    rw [List.append_eq, List.getD_append_right _ _ _ _ h3.le, h3]
    simp

theorem c3_alpha_dropped_or_kept_witness :
    (Picture.sepia (1 / 2) c3wimg).mode = .RGB ∧
    (Picture.whiteBalance "auto" c3wimg).mode = .RGB ∧
    (Picture.colorTemperature 3000 c3wimg).mode = .RGB ∧
    (Picture.invert c3wimg).mode = .RGBA ∧
    (∀ x y, ((Picture.invert c3wimg).pix x y).getD 3 0 = (c3wimg.pix x y).getD 3 0) ∧
    (∀ x y, ((Picture.autoContrast 0 c3wimg).pix x y).getD 3 0 = (c3wimg.pix x y).getD 3 0) ∧
    (∀ x y, ((Picture.equalize c3wimg).pix x y).getD 3 0 = (c3wimg.pix x y).getD 3 0) :=
  c3_alpha_dropped_or_kept c3wimg (1 / 2) "auto" 3000 rfl

/-- A transform handler that succeeds replaces only `current_image`. -/
theorem stepTransform_ok (s : Session) (f : Img → Except PicErr Img) (img out : Img)
    (hc : s.current = some img) (hf : f img = .ok out) :
    stepTransform s f = (.ok (infoOf out), { s with current := some out }) := by
  unfold stepTransform
  rw [hc]
  dsimp only
  rw [hf]

theorem c4_cx_oversize_crop_center_succeeds :
    (handleRequest (mkLoaded c4img) (.cropCenter (some 4) (some 4))).1 =
      .ok ⟨4, 4, .RGB⟩ ∧
    (handleRequest (mkLoaded c4img) (.cropCenter (some 4) (some 4))).1.kind = none ∧
    (Picture.cropCenter c4img 4 4).map (fun o => o.pix 0 0) = .ok [0, 0, 0] ∧
    (Picture.cropCenter c4img 4 4).map (fun o => o.pix 1 1) = .ok [7, 7, 7] :=
  ⟨rfl, rfl, rfl, rfl⟩

/-- C4 (amended): `crop` fails (PIL `ValueError`, surfaced as an
invalid-parameter failure with the state unchanged) when `right < left`
(or `bottom < top`); a degenerate box with `right = left` is accepted.
`crop_center(w,h)` with `w,h ≥ 1` ALWAYS succeeds with exactly `(w,h)`:
`left = (W-w)//2`, `top = (H-h)//2` (floor division), samples are read from
the source inside the overlap and are zero padding outside it — an
oversize request pads instead of failing. -/
theorem c4_crop_semantics (img : Img) (l t r b : Int) (w h : Int)
    (hw : 1 ≤ w) (hh : 1 ≤ h) :
    (r < l →
      handleRequest (mkLoaded img) (.crop l t (some r) (some b)) =
        (.errPic (.cropCoord "right less than left"), mkLoaded img) ∧
      (Resp.errPic (.cropCoord "right less than left")).kind =
        some .InvalidParameter) ∧
    (∃ out, Picture.cropCenter img w h = .ok out ∧
      handleRequest (mkLoaded img) (.cropCenter (some w) (some h)) =
        (.ok (infoOf out), ⟨some img, some out⟩) ∧
      out.width = w.toNat ∧ out.height = h.toNat ∧
      ∀ x y, out.pix x y =
        (let sx : Int := ((img.width : Int) - w).fdiv 2 + (x : Int)
         let sy : Int := ((img.height : Int) - h).fdiv 2 + (y : Int)
         if 0 ≤ sx ∧ sx < (img.width : Int) ∧ 0 ≤ sy ∧ sy < (img.height : Int) then
           img.pix sx.toNat sy.toNat
         else List.replicate img.mode.channels 0)) := by
  constructor
  · intro hrl
    refine ⟨?_, rfl⟩
    have herr : Picture.crop img l t r b = .error (.cropCoord "right less than left") := by
      unfold Picture.crop Picture.pilCrop
      rw [if_pos hrl]
    simp only [handleRequest]
    dsimp only [Option.isNone, Bool.or_self]
    exact stepTransform_err (mkLoaded img)
      (fun im => Picture.crop im l t ((some r).getD 0) ((some b).getD 0)) img rfl _ herr
  · have h1 : ¬ (((img.width : Int) - w).fdiv 2 + w < ((img.width : Int) - w).fdiv 2) := by
      omega
    have h2 : ¬ (((img.height : Int) - h).fdiv 2 + h < ((img.height : Int) - h).fdiv 2) := by
      omega
    have hok : Picture.cropCenter img w h =
        .ok { width := (((img.width : Int) - w).fdiv 2 + w - ((img.width : Int) - w).fdiv 2).toNat,
              height := (((img.height : Int) - h).fdiv 2 + h - ((img.height : Int) - h).fdiv 2).toNat,
              mode := img.mode, palette := img.palette,
              pix := fun x y =>
                let sx : Int := ((img.width : Int) - w).fdiv 2 + (x : Int)
                let sy : Int := ((img.height : Int) - h).fdiv 2 + (y : Int)
                if 0 ≤ sx ∧ sx < (img.width : Int) ∧ 0 ≤ sy ∧ sy < (img.height : Int) then
                  img.pix sx.toNat sy.toNat
                else List.replicate img.mode.channels 0 } := by
      unfold Picture.cropCenter Picture.crop Picture.pilCrop
      rw [if_neg h1, if_neg h2]
    refine ⟨_, hok, ?_, by simp, by simp, fun x y => rfl⟩
    have hfw : falsyInt (some w) = false := by
      simp only [falsyInt, decide_eq_false_iff_not]
      omega
    have hfh : falsyInt (some h) = false := by
      simp only [falsyInt, decide_eq_false_iff_not]
      omega
    simp only [handleRequest, hfw, hfh, Bool.or_self, Bool.false_eq_true, if_false]
    exact stepTransform_ok _ _ img _ rfl hok

theorem c4_crop_semantics_witness :
    ((-1 : Int) < 0 →
      handleRequest (mkLoaded c4wimg) (.crop 0 0 (some (-1)) (some 5)) =
        (.errPic (.cropCoord "right less than left"), mkLoaded c4wimg) ∧
      (Resp.errPic (.cropCoord "right less than left")).kind =
        some .InvalidParameter) ∧
    (∃ out, Picture.cropCenter c4wimg 2 2 = .ok out ∧
      handleRequest (mkLoaded c4wimg) (.cropCenter (some 2) (some 2)) =
        (.ok (infoOf out), ⟨some c4wimg, some out⟩) ∧
      out.width = (2 : Int).toNat ∧ out.height = (2 : Int).toNat ∧
      ∀ x y, out.pix x y =
        (let sx : Int := ((c4wimg.width : Int) - 2).fdiv 2 + (x : Int)
         let sy : Int := ((c4wimg.height : Int) - 2).fdiv 2 + (y : Int)
         if 0 ≤ sx ∧ sx < (c4wimg.width : Int) ∧ 0 ≤ sy ∧ sy < (c4wimg.height : Int) then
           c4wimg.pix sx.toNat sy.toNat
         else List.replicate c4wimg.mode.channels 0)) :=
  c4_crop_semantics c4wimg 0 0 (-1) 5 2 2 (by decide) (by decide)

theorem c5_cx_edge_detect_silent_default :
    (handleRequest (mkLoaded c5img) (.edgeDetect "bogus")).1 = .ok ⟨2, 2, .L⟩ ∧
    (handleRequest (mkLoaded c5img) (.edgeDetect "bogus")).1.kind = none ∧
    (handleRequest (mkLoaded c5img) (.edgeDetect "bogus")).2.current =
      some (Picture.edgeDetect "bogus" c5img) ∧
    Picture.edgeDetect "bogus" c5img = filter3x3 kFindEdges 1 0 c5img :=
  ⟨rfl, rfl, rfl, rfl⟩

/-- C5 (amended): only `art_effect` and `flip` reject an unrecognised enum
string, with an error naming the offending value and the state unchanged;
`edge_detect` silently applies its default filter, `blur` silently applies
`ImageFilter.BLUR`, and `white_balance` silently returns the RGB-converted
image without any adjustment. -/
theorem c5_unknown_strings (img : Img) (rad : ℚ) (t d me mw bt : String)
    (hwf : img.Wf)
    (ht : t ∉ (["poster", "sketch", "oil_paint", "cartoon"] : List String))
    (hd : d ∉ (["horizontal", "vertical"] : List String))
    (hme : me ∉ (["default", "enhance", "contour"] : List String))
    (hmw : mw ∉ (["auto", "gray_world"] : List String))
    (hbt : bt ∉ (["gaussian", "box", "motion"] : List String)) :
    Picture.artEffect t img = .error (.unknownEnum "effect type" t) ∧
    Picture.flip d img = .error (.unknownEnum "flip direction" d) ∧
    handleRequest (mkLoaded img) (.artEffect t) =
      (.errPic (.unknownEnum "effect type" t), mkLoaded img) ∧
    handleRequest (mkLoaded img) (.flip d) =
      (.errPic (.unknownEnum "flip direction" d), mkLoaded img) ∧
    (Resp.errPic (.unknownEnum "effect type" t)).kind = some .InvalidParameter ∧
    Picture.edgeDetect me img = Picture.edgeDetect "default" img ∧
    Picture.blur rad bt img = .ok (filter5x5 kBlur 16 0 img) ∧
    (Picture.whiteBalance mw img).PixEq img.convertRGB := by
  simp only [List.mem_cons, List.not_mem_nil, or_false, not_or] at ht hd hme hmw hbt
  have hart : Picture.artEffect t img = .error (.unknownEnum "effect type" t) := by
    unfold Picture.artEffect
    rw [if_neg ht.1, if_neg ht.2.1, if_neg ht.2.2.1, if_neg ht.2.2.2]
  have hflip : Picture.flip d img = .error (.unknownEnum "flip direction" d) := by
    unfold Picture.flip
    rw [if_neg hd.1, if_neg hd.2]
  refine ⟨hart, hflip, ?_, ?_, rfl, ?_, ?_, ?_⟩
  · simp only [handleRequest]
    exact stepTransform_err (mkLoaded img) (fun im => Picture.artEffect t im) img rfl _ hart
  · simp only [handleRequest]
    exact stepTransform_err (mkLoaded img) (fun im => Picture.flip d im) img rfl _ hflip
  · unfold Picture.edgeDetect
    rw [if_neg hme.1, if_neg hme.2.1, if_neg hme.2.2, if_pos rfl]
  · unfold Picture.blur
    rw [if_neg hbt.1, if_neg hbt.2.1, if_neg hbt.2.2]
  · unfold Picture.whiteBalance
    refine ⟨rfl, rfl, rfl, ?_⟩
    intro x hx y hy
    obtain ⟨hlen, hbnd⟩ := convertRGB_pix_wf img hwf x y hx hy
    dsimp only [Img.mapPix, px3]
    rw [if_neg (not_or.mpr ⟨hmw.1, hmw.2⟩)]
    rw [mul_one, mul_one, mul_one,
      toU8_coe _ (hbnd 0 (by omega)), toU8_coe _ (hbnd 1 (by omega)),
      toU8_coe _ (hbnd 2 (by omega))]
    exact (list3_ext _ hlen).symm

theorem c5_unknown_strings_witness :
    Picture.artEffect "watercolor" c5wimg =
      .error (.unknownEnum "effect type" "watercolor") ∧
    Picture.flip "diagonal" c5wimg = .error (.unknownEnum "flip direction" "diagonal") ∧
    handleRequest (mkLoaded c5wimg) (.artEffect "watercolor") =
      (.errPic (.unknownEnum "effect type" "watercolor"), mkLoaded c5wimg) ∧
    handleRequest (mkLoaded c5wimg) (.flip "diagonal") =
      (.errPic (.unknownEnum "flip direction" "diagonal"), mkLoaded c5wimg) ∧
    (Resp.errPic (.unknownEnum "effect type" "watercolor")).kind =
      some .InvalidParameter ∧
    Picture.edgeDetect "sobel" c5wimg = Picture.edgeDetect "default" c5wimg ∧
    Picture.blur 2 "median" c5wimg = .ok (filter5x5 kBlur 16 0 c5wimg) ∧
    (Picture.whiteBalance "manual" c5wimg).PixEq c5wimg.convertRGB :=
  c5_unknown_strings c5wimg 2 "watercolor" "diagonal" "sobel" "manual" "median"
    (by decide) (by decide) (by decide) (by decide) (by decide) (by decide)

/-- C6 counterexample: a 4×3 source resized to target (2,2) with aspect
preserved: scale is 1/2, the exact scaled height is 1.5; the code truncates
to (2,1) while the spec's round-to-nearest-at-least-1 rule gives (2,2). -/
theorem c6_cx_truncation_not_rounding :
    Picture.resizeDims 4 3 2 2 true = (2, 1) ∧
    specResizeDims 4 3 2 2 = (2, 2) ∧
    Picture.resizeDims 4 3 2 2 true ≠ specResizeDims 4 3 2 2 := by
  refine ⟨?_, ?_, ?_⟩ <;> norm_num [Picture.resizeDims, specResizeDims, pyInt, min_def]

/-- C6 (amended): with `keep_aspect` the code multiplies both source
dimensions by `min(targetW/srcW, targetH/srcH)` and TRUNCATES each via
Python `int` (floor for the nonnegative values here, no minimum of 1); the
result always fits inside the target box, and the 2000×1000 → (500,500)
scenario yields exactly (500,250). -/
theorem c6_resize_keep_aspect (ow oh : Nat) (tw th : Int)
    (how : 0 < ow) (hoh : 0 < oh) (htw : 0 ≤ tw) (hth : 0 ≤ th) :
    Picture.resizeDims ow oh tw th true =
      (⌊(ow : ℚ) * min ((tw : ℚ) / (ow : ℚ)) ((th : ℚ) / (oh : ℚ))⌋,
       ⌊(oh : ℚ) * min ((tw : ℚ) / (ow : ℚ)) ((th : ℚ) / (oh : ℚ))⌋) ∧
    (Picture.resizeDims ow oh tw th true).1 ≤ tw ∧
    (Picture.resizeDims ow oh tw th true).2 ≤ th ∧
    (handleRequest (mkLoaded img2000) (.resize (some 500) (some 500) true)).1 =
      .ok ⟨500, 250, .RGB⟩ := by
  have how : (0 : ℚ) < (ow : ℚ) := by exact_mod_cast how
  have hoh : (0 : ℚ) < (oh : ℚ) := by exact_mod_cast hoh
  have h1 : (0 : ℚ) ≤ (tw : ℚ) / (ow : ℚ) :=
    div_nonneg (by exact_mod_cast htw) how.le
  have h2 : (0 : ℚ) ≤ (th : ℚ) / (oh : ℚ) :=
    div_nonneg (by exact_mod_cast hth) hoh.le
  have hsc : (0 : ℚ) ≤ min ((tw : ℚ) / (ow : ℚ)) ((th : ℚ) / (oh : ℚ)) := le_min h1 h2
  have hw0 : (0 : ℚ) ≤ (ow : ℚ) * min ((tw : ℚ) / (ow : ℚ)) ((th : ℚ) / (oh : ℚ)) :=
    mul_nonneg how.le hsc
  have hh0 : (0 : ℚ) ≤ (oh : ℚ) * min ((tw : ℚ) / (ow : ℚ)) ((th : ℚ) / (oh : ℚ)) :=
    mul_nonneg hoh.le hsc
  have hmain : Picture.resizeDims ow oh tw th true =
      (⌊(ow : ℚ) * min ((tw : ℚ) / (ow : ℚ)) ((th : ℚ) / (oh : ℚ))⌋,
       ⌊(oh : ℚ) * min ((tw : ℚ) / (ow : ℚ)) ((th : ℚ) / (oh : ℚ))⌋) := by
    unfold Picture.resizeDims
    rw [if_pos rfl]
    dsimp only
    unfold pyInt
    rw [if_pos hw0, if_pos hh0]
  have hscen : (handleRequest (mkLoaded img2000) (.resize (some 500) (some 500) true)).1 =
      .ok ⟨500, 250, .RGB⟩ := by
    have hdim : Picture.resizeDims 2000 1000 500 500 true = (500, 250) := by
      norm_num [Picture.resizeDims, pyInt, min_def]
    have hres : (handleRequest (mkLoaded img2000) (.resize (some 500) (some 500) true)).1 =
        .ok (infoOf (Picture.resize 500 500 true img2000)) := rfl
    rw [hres]
    have hinfo : infoOf (Picture.resize 500 500 true img2000) = ⟨500, 250, .RGB⟩ := by
      unfold infoOf Picture.resize resampleTo
      dsimp only
      rw [show img2000.width = 2000 from rfl, show img2000.height = 1000 from rfl, hdim]
      rfl
    rw [hinfo]
  refine ⟨hmain, ?_, ?_, hscen⟩
  · rw [hmain]
    dsimp only
    have hb : (ow : ℚ) * min ((tw : ℚ) / (ow : ℚ)) ((th : ℚ) / (oh : ℚ)) ≤ (tw : ℚ) := by
      calc (ow : ℚ) * min ((tw : ℚ) / (ow : ℚ)) ((th : ℚ) / (oh : ℚ))
          ≤ (ow : ℚ) * ((tw : ℚ) / (ow : ℚ)) :=
            mul_le_mul_of_nonneg_left (min_le_left _ _) how.le
        _ = (tw : ℚ) := by field_simp
    calc ⌊(ow : ℚ) * min ((tw : ℚ) / (ow : ℚ)) ((th : ℚ) / (oh : ℚ))⌋
        ≤ ⌊(tw : ℚ)⌋ := Int.floor_le_floor hb
      _ = tw := Int.floor_intCast tw
  · rw [hmain]
    dsimp only
    have hb : (oh : ℚ) * min ((tw : ℚ) / (ow : ℚ)) ((th : ℚ) / (oh : ℚ)) ≤ (th : ℚ) := by
      calc (oh : ℚ) * min ((tw : ℚ) / (ow : ℚ)) ((th : ℚ) / (oh : ℚ))
          ≤ (oh : ℚ) * ((th : ℚ) / (oh : ℚ)) :=
            mul_le_mul_of_nonneg_left (min_le_right _ _) hoh.le
        _ = (th : ℚ) := by field_simp
    calc ⌊(oh : ℚ) * min ((tw : ℚ) / (ow : ℚ)) ((th : ℚ) / (oh : ℚ))⌋
        ≤ ⌊(th : ℚ)⌋ := Int.floor_le_floor hb
      _ = th := Int.floor_intCast th

theorem c6_resize_keep_aspect_witness :
    Picture.resizeDims 2000 1000 500 500 true =
      (⌊(2000 : ℚ) * min ((500 : ℚ) / (2000 : ℚ)) ((500 : ℚ) / (1000 : ℚ))⌋,
       ⌊(1000 : ℚ) * min ((500 : ℚ) / (2000 : ℚ)) ((500 : ℚ) / (1000 : ℚ))⌋) ∧
    (Picture.resizeDims 2000 1000 500 500 true).1 ≤ 500 ∧
    (Picture.resizeDims 2000 1000 500 500 true).2 ≤ 500 ∧
    (handleRequest (mkLoaded img2000) (.resize (some 500) (some 500) true)).1 =
      .ok ⟨500, 250, .RGB⟩ :=
  c6_resize_keep_aspect 2000 1000 500 500 (by decide) (by decide) (by decide) (by decide)

/-- Channel mean of an image whose pixels are all equal. -/
theorem meanCh_const (img : Img) (p : List Nat) (c : Nat)
    (hp : ∀ x y, img.pix x y = p) (hw : 0 < img.width) (hh : 0 < img.height) :
    Picture.meanCh img c = (p.getD c 0 : ℚ) := by
  unfold Picture.meanCh Picture.sumPix
  simp only [hp, List.map_const', List.sum_replicate, List.length_range, nsmul_eq_mul]
  rw [div_eq_iff (mul_ne_zero (Nat.cast_ne_zero.mpr hw.ne') (Nat.cast_ne_zero.mpr hh.ne'))]
  ring

/-- C7 counterexample: at 1000K the factor is `(6500-1000)/4500 = 11/9 > 1`,
so the red multiplier is `1 + (11/9)*0.2 = 56/45 ≈ 1.244`: the adjustment is
NOT capped at 20%.  On gray 100 the code produces red 124, whereas a 20%
cap would give 120. -/
theorem c7_cx_no_cap_at_1000K :
    (Picture.colorTemperature 1000 c7gray).pix 0 0 = [124, 100, 75] ∧
    specCapRed100 = 120 ∧
    ((Picture.colorTemperature 1000 c7gray).pix 0 0).getD 0 0 ≠ specCapRed100 := by
  have h1 : (Picture.colorTemperature 1000 c7gray).pix 0 0 = [124, 100, 75] := by
    norm_num [Picture.colorTemperature, c7gray, uniformImg, Img.convertRGB, Img.mapPix,
      px3, toU8, clip255, min_def, max_def]
    decide
  have h2 : specCapRed100 = 120 := by
    norm_num [specCapRed100, toU8, clip255, min_def, max_def]
    decide
  refine ⟨h1, h2, ?_⟩
  rw [h1, h2]
  norm_num

/-- C7 (amended): below 6500K red is scaled by `1 + 0.2*(6500-T)/4500` and
blue by `1 - 0.2*(6500-T)/4500`, clamped to the 8-bit range but NOT capped
at 20% (at 1000K the adjustment is 11/45 ≈ 24.4%).  In particular at 2000K
(factor exactly 1, multipliers 6/5 and 4/5) the mean red channel of a
neutral-gray image (gray level 5..212) strictly increases and the mean blue
channel strictly decreases. -/
theorem c7_warm_gray_shifts_means (v w h : Nat) (hv1 : 5 ≤ v) (hv2 : v ≤ 212)
    (hw : 0 < w) (hh : 0 < h) :
    (v : ℚ) < Picture.meanCh (Picture.colorTemperature 2000 (uniformImg w h .RGB [v, v, v])) 0 ∧
    Picture.meanCh (Picture.colorTemperature 2000 (uniformImg w h .RGB [v, v, v])) 2 < (v : ℚ) ∧
    Picture.meanCh (uniformImg w h .RGB [v, v, v]) 0 = (v : ℚ) := by
  have hv255 : ((v : ℚ)) ≤ 212 := by exact_mod_cast hv2
  have hv5 : (5 : ℚ) ≤ (v : ℚ) := by exact_mod_cast hv1
  have hp : ∀ x y, (Picture.colorTemperature 2000 (uniformImg w h .RGB [v, v, v])).pix x y =
      [toU8 ((v : ℚ) * (6 / 5)), toU8 (v : ℚ), toU8 ((v : ℚ) * (4 / 5))] := by
    intro x y
    show [toU8 _, toU8 _, toU8 _] = _
    norm_num [px3, Img.convertRGB, uniformImg]
  have hmr := meanCh_const (Picture.colorTemperature 2000 (uniformImg w h .RGB [v, v, v]))
    _ 0 hp hw hh
  have hmb := meanCh_const (Picture.colorTemperature 2000 (uniformImg w h .RGB [v, v, v]))
    _ 2 hp hw hh
  have hmv := meanCh_const (uniformImg w h .RGB [v, v, v]) [v, v, v] 0
    (fun _ _ => rfl) hw hh
  have hclipR : clip255 ((v : ℚ) * (6 / 5)) = (v : ℚ) * (6 / 5) := by
    unfold clip255
    rw [min_eq_right (by linarith), max_eq_right (by positivity)]
  have hclipB : clip255 ((v : ℚ) * (4 / 5)) = (v : ℚ) * (4 / 5) := by
    unfold clip255
    rw [min_eq_right (by linarith), max_eq_right (by positivity)]
  refine ⟨?_, ?_, hmv⟩
  · rw [hmr]
    simp only [List.getD_cons_zero]
    have hfl : ((v : ℤ) + 1) ≤ ⌊(v : ℚ) * (6 / 5)⌋ := by
      rw [Int.le_floor]
      push_cast
      linarith
    have : v < toU8 ((v : ℚ) * (6 / 5)) := by
      unfold toU8
      rw [hclipR]
      omega
    exact_mod_cast this
  · rw [hmb]
    simp only [List.getD_cons_succ, List.getD_cons_zero]
    have hfl : ⌊(v : ℚ) * (4 / 5)⌋ < (v : ℤ) := by
      rw [Int.floor_lt]
      push_cast
      linarith
    have : toU8 ((v : ℚ) * (4 / 5)) < v := by
      unfold toU8
      rw [hclipB]
      omega
    exact_mod_cast this

theorem c7_warm_gray_shifts_means_witness :
    (128 : ℚ) < Picture.meanCh
      (Picture.colorTemperature 2000 (uniformImg 2 2 .RGB [128, 128, 128])) 0 ∧
    Picture.meanCh (Picture.colorTemperature 2000 (uniformImg 2 2 .RGB [128, 128, 128])) 2 <
      (128 : ℚ) ∧
    Picture.meanCh (uniformImg 2 2 .RGB [128, 128, 128]) 0 = (128 : ℚ) := by
  have := c7_warm_gray_shifts_means 128 2 2 (by decide) (by decide) (by decide) (by decide)
  exact_mod_cast this

/-- C8: `sepia(0)` is the identity on RGB images, and `sepia(1)` is exactly
the clamped sepia projection by the fixed matrix
`[[.393,.769,.189],[.349,.686,.168],[.272,.534,.131]]`. -/
theorem c8_sepia_identities (img : Img) (himg : img.mode = .RGB) (hwf : img.Wf) :
    (Picture.sepia 0 img).PixEq img ∧
    ∀ x, x < img.width → ∀ y, y < img.height →
      (Picture.sepia 1 img).pix x y =
        [toU8 (0.393 * ((img.pix x y).getD 0 0 : ℚ) + 0.769 * ((img.pix x y).getD 1 0 : ℚ)
            + 0.189 * ((img.pix x y).getD 2 0 : ℚ)),
         toU8 (0.349 * ((img.pix x y).getD 0 0 : ℚ) + 0.686 * ((img.pix x y).getD 1 0 : ℚ)
            + 0.168 * ((img.pix x y).getD 2 0 : ℚ)),
         toU8 (0.272 * ((img.pix x y).getD 0 0 : ℚ) + 0.534 * ((img.pix x y).getD 1 0 : ℚ)
            + 0.131 * ((img.pix x y).getD 2 0 : ℚ))] := by
  obtain ⟨hpix, -⟩ := hwf
  constructor
  · refine ⟨rfl, rfl, himg.symm, ?_⟩
    intro x hx y hy
    obtain ⟨hlen, hbnd⟩ := hpix x hx y hy
    rw [himg] at hlen hbnd
    unfold Picture.sepia Img.mapPix Img.convertRGB Picture.sepiaPix px3
    dsimp only
    rw [himg]
    dsimp only
    have e1 : ∀ a s : ℚ, a * (1 - 0) + s * 0 = a := by intro a s; ring
    rw [e1, e1, e1,
      toU8_coe _ (hbnd 0 (by simp [Mode.channels])),
      toU8_coe _ (hbnd 1 (by simp [Mode.channels])),
      toU8_coe _ (hbnd 2 (by simp [Mode.channels]))]
    exact (list3_ext _ hlen).symm
  · intro x hx y hy
    unfold Picture.sepia Img.mapPix Img.convertRGB Picture.sepiaPix px3
    dsimp only
    rw [himg]
    dsimp only
    have e1 : ∀ a s : ℚ, a * (1 - 1) + s * 1 = s := by intro a s; ring
    rw [e1, e1, e1]

theorem c8_sepia_identities_witness :
    (Picture.sepia 0 c8img).PixEq c8img ∧
    ∀ x, x < c8img.width → ∀ y, y < c8img.height →
      (Picture.sepia 1 c8img).pix x y =
        [toU8 (0.393 * ((c8img.pix x y).getD 0 0 : ℚ) + 0.769 * ((c8img.pix x y).getD 1 0 : ℚ)
            + 0.189 * ((c8img.pix x y).getD 2 0 : ℚ)),
         toU8 (0.349 * ((c8img.pix x y).getD 0 0 : ℚ) + 0.686 * ((c8img.pix x y).getD 1 0 : ℚ)
            + 0.168 * ((c8img.pix x y).getD 2 0 : ℚ)),
         toU8 (0.272 * ((c8img.pix x y).getD 0 0 : ℚ) + 0.534 * ((c8img.pix x y).getD 1 0 : ℚ)
            + 0.131 * ((c8img.pix x y).getD 2 0 : ℚ))] :=
  c8_sepia_identities c8img rfl (by decide)

/-- Every pixel of gray-world white balance on the gray-1 image is 0: the
gain is `1/(1+1e-6) < 1` and the scaled sample `0.999999…` truncates to 0. -/
theorem wb_gray1_pix :
    ∀ x y, (Picture.whiteBalance "gray_world" c9gray1).pix x y = [0, 0, 0] := by
  intro x y
  show [toU8 _, toU8 _, toU8 _] = _
  norm_num [Picture.meanCh, Picture.sumPix, c9gray1, uniformImg, Img.convertRGB,
    px3, toU8, clip255, List.range_succ, min_def, max_def]

/-- Gray-world white balance fixes the all-black image. -/
theorem wb_gray0_pix :
    ∀ x y, (Picture.whiteBalance "gray_world" c9gray0).pix x y = [0, 0, 0] := by
  intro x y
  show [toU8 _, toU8 _, toU8 _] = _
  norm_num [Picture.meanCh, Picture.sumPix, c9gray0, uniformImg, Img.convertRGB,
    px3, toU8, clip255, List.range_succ, min_def, max_def]

/-- C9 counterexample: gray-world white balance on the uniformly gray image
at level 1 is NOT a no-op (every sample drops to 0). -/
theorem c9_cx_gray1_not_fixed :
    ¬ (Picture.whiteBalance "gray_world" c9gray1).PixEq c9gray1 := by
  intro h
  have h00 := h.2.2.2 0 (by decide) 0 (by decide)
  rw [wb_gray1_pix 0 0] at h00
  have : c9gray1.pix 0 0 = [1, 1, 1] := rfl
  rw [this] at h00
  simp at h00

/-- C9 (amended): gray-world white balance scales each channel of a
uniformly gray image by `v/(v+1e-6) < 1`, so after uint8 truncation the
gray-1 image becomes the gray-0 image (not a no-op); the gray-0 image is a
fixed point. -/
theorem c9_gray_world_not_noop :
    (Picture.whiteBalance "gray_world" c9gray1).PixEq c9gray0 ∧
    (Picture.whiteBalance "gray_world" c9gray0).PixEq c9gray0 := by
  constructor
  · exact ⟨rfl, rfl, rfl, fun x _ y _ => wb_gray1_pix x y⟩
  · exact ⟨rfl, rfl, rfl, fun x _ y _ => wb_gray0_pix x y⟩

/-- C10: `_image_to_base64` always picks JPEG regardless of the `format`
argument; the encoded image is always RGB (same dimensions): alpha-carrying
modes are composited onto an opaque white background through their alpha
band (Pillow's rounded fixed-point mask blend), other non-RGB modes are
converted to RGB. -/
theorem c10_base64_always_jpeg (img : Img) (format : String) :
    imgToB64Format format = "JPEG" ∧
    (imgToB64Prep img).mode = .RGB ∧
    (imgToB64Prep img).width = img.width ∧
    (imgToB64Prep img).height = img.height ∧
    (img.mode = .RGBA →
      ∀ x y, (imgToB64Prep img).pix x y =
        [blendMask ((img.pix x y).getD 3 0) 255 ((img.pix x y).getD 0 0),
         blendMask ((img.pix x y).getD 3 0) 255 ((img.pix x y).getD 1 0),
         blendMask ((img.pix x y).getD 3 0) 255 ((img.pix x y).getD 2 0)]) := by
  refine ⟨rfl, ?_, ?_, ?_, ?_⟩
  · unfold imgToB64Prep
    split_ifs <;> first | rfl | assumption
  · unfold imgToB64Prep
    split_ifs <;> rfl
  · unfold imgToB64Prep
    split_ifs <;> rfl
  · intro hm x y
    unfold imgToB64Prep
    rw [if_pos (Or.inl hm), if_neg (by rw [hm]; simp)]
    unfold pasteWhite Img.convertRGB
    dsimp only
    rw [hm]
    dsimp only [Mode.channels]
    simp [List.range_succ]

theorem c10_base64_always_jpeg_witness :
    imgToB64Format "PNG" = "JPEG" ∧
    (imgToB64Prep c10img).mode = .RGB ∧
    (imgToB64Prep c10img).width = c10img.width ∧
    (imgToB64Prep c10img).height = c10img.height ∧
    (c10img.mode = .RGBA →
      ∀ x y, (imgToB64Prep c10img).pix x y =
        [blendMask ((c10img.pix x y).getD 3 0) 255 ((c10img.pix x y).getD 0 0),
         blendMask ((c10img.pix x y).getD 3 0) 255 ((c10img.pix x y).getD 1 0),
         blendMask ((c10img.pix x y).getD 3 0) 255 ((c10img.pix x y).getD 2 0)]) :=
  c10_base64_always_jpeg c10img "PNG"
